import Mathlib

/-!
Shallow embedding of `src/LOADABLES/SRC/timep.c`: a bash loadable builtin that
registers one command, `clock_gettime`, whose handler is `timep_builtin`.
`timep_builtin` dispatches on `argv[0]` and calls `clock_gettime_main`, which
reads `CLOCK_PROCESS_CPUTIME_ID`, converts the reading to microseconds with
`int64_t` arithmetic, and either prints the decimal value to stdout or binds
it to a named shell variable.

The embedding makes every observable effect explicit: bytes written to stdout,
diagnostics written through `builtin_error`, `bind_variable` calls, the number
of `clock_gettime` system calls, and the number of `xfree(argv)` calls.
Machine integers are modelled as `Int` with explicit two's-complement
wraparound (`wrap64`) where the C code stores into `int64_t`.
-/

namespace Timep

/-- Bash's `EXECUTION_SUCCESS` sentinel. -/
def EXECUTION_SUCCESS : Nat := 0

/-- Bash's `EXECUTION_FAILURE` sentinel. -/
def EXECUTION_FAILURE : Nat := 1

/-- A `struct timespec` clock reading: `tv_sec` (a `time_t`) and `tv_nsec`
(a `long`), both signed machine integers modelled as `Int`. -/
structure Timespec where
  tv_sec : Int
  tv_nsec : Int
deriving DecidableEq

/-- The platform/kernel environment for one invocation:
`unsupported` models a build where `CLOCK_PROCESS_CPUTIME_ID` is not defined
(the `#else` branch of the C file), `fail errmsg` models
`clock_gettime(...) != 0` with `strerror(errno) = errmsg`, and `ok ts` models
a successful read returning `ts`. -/
inductive ClockOutcome where
  | unsupported
  | fail (errmsg : String)
  | ok (ts : Timespec)
deriving DecidableEq

/-- The observable effects of one invocation: bytes printed to stdout,
the list of `builtin_error` diagnostic messages, the `bind_variable`
calls `(name, value)`, the number of `clock_gettime` system calls made,
and the number of `xfree(argv)` calls made. -/
structure Effects where
  stdout : String
  diag : List String
  bindings : List (String × String)
  clockReads : Nat
  frees : Nat
deriving DecidableEq

/-- The effects at the start of an invocation: nothing has happened yet. -/
def Effects.empty : Effects :=
  { stdout := "", diag := [], bindings := [], clockReads := 0, frees := 0 }

/-- Two's-complement reduction into `int64_t`: the unique value congruent to
`x` modulo `2^64` lying in `[-2^63, 2^63)`. -/
def wrap64 (x : Int) : Int := (x + 2 ^ 63) % 2 ^ 64 - 2 ^ 63

/-- The ASCII character of a decimal digit `d < 10`. -/
def digitChar (d : Nat) : Char := Char.ofNat (48 + d)

/-- Fuel-driven digit extraction (structural recursion on the fuel, so that
it reduces definitionally); with fuel above `n`, it yields the decimal digits
of `n`, most significant first. -/
def natDigitsF (fuel n : Nat) : List Nat :=
  match fuel with
  | 0 => []
  | fuel + 1 => if n < 10 then [n] else natDigitsF fuel (n / 10) ++ [n % 10]

/-- The decimal digits of `n`, most significant first (what `%lld` emits for
a non-negative value). -/
def natDigits (n : Nat) : List Nat := natDigitsF (n + 1) n

/-- The decimal string of a natural number. -/
def natDecimal (n : Nat) : String := ⟨(natDigits n).map digitChar⟩

/-- `printf`/`snprintf` `%lld` formatting of a signed 64-bit value. -/
def intDecimal (v : Int) : String :=
  if v < 0 then "-" ++ natDecimal (-v).toNat else natDecimal v.toNat

/-- `snprintf(buf_micros, sizeof(buf_micros), ...)` with a 32-byte buffer:
at most 31 characters are stored, plus the NUL terminator. -/
def snprintf32 (s : String) : String := ⟨s.toList.take 31⟩

/-- Line 85 of `timep.c`:
`int64_t micros = ts.tv_sec * 1000000LL + ts.tv_nsec / 1000;`.
C `/` on signed integers truncates toward zero, which is `Int.tdiv`;
the store into `int64_t` is modelled by `wrap64`. -/
def cpuMicros (ts : Timespec) : Int :=
  wrap64 (ts.tv_sec * 1000000 + Int.tdiv ts.tv_nsec 1000)

/-- A single-quote character, used in the dispatcher's diagnostic format
`timep: unknown command '%s'`. -/
def squote : String := ⟨[Char.ofNat 39]⟩

/-- `clock_gettime_main(argc, argv)` from `timep.c`. `argv` is the full
argument vector built by `make_builtin_argv`, so `argv[0]` is the command
name and `argc = argv.length`. Returns the exit status paired with the
effects performed by this function itself (the caller `timep_builtin` adds
its own `xfree`). -/
def clock_gettime_main (env : ClockOutcome) (argv : List String) : Nat × Effects :=
  let argc := argv.length
  if argc > 2 then
    (EXECUTION_FAILURE,
      { Effects.empty with diag := ["clock_gettime: too many arguments"] })
  else
    let varname : Option String :=
      if argc = 2 ∧ argv.getD 1 "" ≠ "" then some (argv.getD 1 "") else none
    match env with
    | ClockOutcome.unsupported =>
      (EXECUTION_FAILURE,
        { Effects.empty with
            diag := ["clock_gettime is not supported on this system."]
            frees := 1 })
    | ClockOutcome.fail errmsg =>
      (EXECUTION_FAILURE,
        { Effects.empty with
            diag := ["clock_gettime failed: " ++ errmsg]
            clockReads := 1
            frees := 1 })
    | ClockOutcome.ok ts =>
      let micros := cpuMicros ts
      match varname with
      | some v =>
        (EXECUTION_SUCCESS,
          { Effects.empty with
              bindings := [(v, snprintf32 (intDecimal micros))]
              clockReads := 1 })
      | none =>
        (EXECUTION_SUCCESS,
          { Effects.empty with
              stdout := intDecimal micros ++ "\n"
              clockReads := 1 })

/-- `timep_builtin(list)` from `timep.c`, after `make_builtin_argv` has built
`argv` (with `argv[0]` the invoked command name). Dispatches on `argv[0]` and
unconditionally frees `argv` once before returning. -/
def timep_builtin (env : ClockOutcome) (argv : List String) : Nat × Effects :=
  let sub := argv.getD 0 ""
  if sub = "clock_gettime" then
    let r := clock_gettime_main env argv
    (r.1, { r.2 with frees := r.2.frees + 1 })
  else
    (EXECUTION_FAILURE,
      { Effects.empty with
          diag := ["timep: unknown command " ++ squote ++ sub ++ squote]
          frees := 1 })

/-- The numeric value of a list of ASCII digit characters, read in base 10. -/
def digitsVal (l : List Char) : Nat := l.foldl (fun a c => 10 * a + (c.toNat - 48)) 0

/-- Parse a decimal string (optionally starting with a minus sign) back to an
integer; the inverse of `intDecimal` on its range. -/
def decValue (s : String) : Int :=
  match s.toList with
  | [] => 0
  | c :: rest => if c = '-' then -(digitsVal rest : Int) else (digitsVal (c :: rest) : Int)

/-- `true` iff `s` is a non-empty string of decimal digits (no sign). -/
def isNonNegDecString (s : String) : Bool :=
  !s.toList.isEmpty && s.toList.all (fun c => c.isDigit)

/-- The line printed to stdout by an invocation, with the trailing newline of
`printf("%lld\n", ...)` removed. -/
def printedValue (out : Nat × Effects) : String := ⟨out.2.stdout.toList.dropLast⟩

/-! Helper lemmas about the decimal formatter and its inverse. -/

theorem natDigitsF_fuel : ∀ fuel1 fuel2 n : Nat, n < fuel1 → n < fuel2 →
    natDigitsF fuel1 n = natDigitsF fuel2 n := by
  intro fuel1
  induction fuel1 with
  | zero =>
    intro fuel2 n h1 _
    omega
  | succ f ih =>
    intro fuel2 n h1 h2
    cases fuel2 with
    | zero => omega
    | succ g =>
      show (if n < 10 then [n] else natDigitsF f (n / 10) ++ [n % 10])
        = (if n < 10 then [n] else natDigitsF g (n / 10) ++ [n % 10])
      by_cases h : n < 10
      · simp [h]
      · simp only [if_neg h]
        rw [ih g (n / 10) (by omega) (by omega)]

theorem natDigits_small {n : Nat} (h : n < 10) : natDigits n = [n] := by
  show (if n < 10 then [n] else natDigitsF n (n / 10) ++ [n % 10]) = [n]
  simp [h]

theorem natDigits_step {n : Nat} (h : ¬ n < 10) :
    natDigits n = natDigits (n / 10) ++ [n % 10] := by
  show (if n < 10 then [n] else natDigitsF n (n / 10) ++ [n % 10]) = _
  rw [if_neg h, natDigitsF_fuel n (n / 10 + 1) (n / 10) (by omega) (by omega)]
  rfl

theorem natDigits_ne_nil (n : Nat) : natDigits n ≠ [] := by
  by_cases h : n < 10
  · rw [natDigits_small h]; simp
  · rw [natDigits_step h]; simp

theorem natDigits_all_lt (n : Nat) : ∀ d ∈ natDigits n, d < 10 := by
  induction n using Nat.strong_induction_on with
  | _ n ih =>
    by_cases h : n < 10
    · rw [natDigits_small h]; simpa using h
    · rw [natDigits_step h]
      intro d hd
      rcases List.mem_append.mp hd with h1 | h2
      · exact ih (n / 10) (by omega) d h1
      · simp at h2; omega

theorem digitChar_toNat : ∀ d : Nat, d < 10 → (digitChar d).toNat = 48 + d := by decide

theorem digitChar_ne_dash : ∀ d : Nat, d < 10 → digitChar d ≠ '-' := by decide

theorem digitChar_isDigit : ∀ d : Nat, d < 10 → (digitChar d).isDigit = true := by decide

theorem digitsVal_append (l : List Char) (c : Char) :
    digitsVal (l ++ [c]) = 10 * digitsVal l + (c.toNat - 48) := by
  simp [digitsVal, List.foldl_append]

theorem digitsVal_natDigits (n : Nat) : digitsVal ((natDigits n).map digitChar) = n := by
  induction n using Nat.strong_induction_on with
  | _ n ih =>
    by_cases h : n < 10
    · rw [natDigits_small h]
      have hc := digitChar_toNat n h
      simp [digitsVal]
      omega
    · rw [natDigits_step h]
      simp only [List.map_append, List.map_cons, List.map_nil]
      rw [digitsVal_append, ih (n / 10) (by omega)]
      have hc := digitChar_toNat (n % 10) (by omega)
      omega

theorem natDigits_length_le : ∀ k n : Nat, n < 10 ^ k → (natDigits n).length ≤ max k 1 := by
  intro k
  induction k with
  | zero =>
    intro n hn
    have : n = 0 := by omega
    subst this
    rw [natDigits_small (by omega)]
    simp
  | succ k ih =>
    intro n hn
    by_cases h : n < 10
    · rw [natDigits_small h]; simp
    · rw [natDigits_step h]
      have hdiv : n / 10 < 10 ^ k := by
        rw [Nat.div_lt_iff_lt_mul (by norm_num)]
        calc n < 10 ^ (k + 1) := hn
        _ = 10 ^ k * 10 := by ring
      have hk : 1 ≤ k := by
        rcases Nat.eq_zero_or_pos k with h0 | h0
        · subst h0; norm_num at hn; omega
        · exact h0
      have := ih (n / 10) hdiv
      simp only [List.length_append, List.length_cons, List.length_nil]
      omega

theorem string_length_mk (l : List Char) : (String.mk l).length = l.length := rfl

theorem string_append_mk (l1 l2 : List Char) :
    String.mk l1 ++ String.mk l2 = String.mk (l1 ++ l2) := rfl

theorem natDecimal_length_le {n : Nat} (h : n < 10 ^ 19) : (natDecimal n).length ≤ 19 := by
  have := natDigits_length_le 19 n h
  simp only [natDecimal, string_length_mk, List.length_map]
  omega

theorem intDecimal_length_le {v : Int} (h1 : -(2 ^ 63) ≤ v) (h2 : v < 2 ^ 63) :
    (intDecimal v).length ≤ 20 := by
  have hpow : (10 : Nat) ^ 19 = 10000000000000000000 := by norm_num
  unfold intDecimal
  split
  · have hn : (-v).toNat < 10 ^ 19 := by omega
    have := natDecimal_length_le hn
    have hmk : "-" = String.mk ['-'] := rfl
    rw [hmk]
    cases hd : natDecimal (-v).toNat with
    | mk l =>
      rw [string_append_mk]
      rw [hd] at this
      simp only [string_length_mk] at this ⊢
      simp only [List.length_append, List.length_cons, List.length_nil]
      omega
  · have hn : v.toNat < 10 ^ 19 := by omega
    have := natDecimal_length_le hn
    omega

theorem snprintf32_eq {s : String} (h : s.length ≤ 31) : snprintf32 s = s := by
  show (⟨s.data.take 31⟩ : String) = s
  rw [List.take_of_length_le h]

theorem decValue_digitString {l : List Nat} (hne : l ≠ []) (hlt : ∀ d ∈ l, d < 10) :
    decValue ⟨l.map digitChar⟩ = (digitsVal (l.map digitChar) : Int) := by
  cases l with
  | nil => exact absurd rfl hne
  | cons d t =>
    have hd : d < 10 := hlt d (by simp)
    have heq : decValue ⟨(d :: t).map digitChar⟩
        = if digitChar d = '-' then -(digitsVal (t.map digitChar) : Int)
          else (digitsVal (digitChar d :: t.map digitChar) : Int) := rfl
    rw [heq, if_neg (digitChar_ne_dash d hd), List.map_cons]

theorem decValue_natDecimal (n : Nat) : decValue (natDecimal n) = (n : Int) := by
  have h := decValue_digitString (natDigits_ne_nil n) (natDigits_all_lt n)
  rw [digitsVal_natDigits] at h
  exact h

theorem decValue_intDecimal (v : Int) : decValue (intDecimal v) = v := by
  unfold intDecimal
  split
  · have hmk : "-" ++ natDecimal (-v).toNat
        = (⟨'-' :: (natDigits (-v).toNat).map digitChar⟩ : String) := rfl
    rw [hmk]
    have hneg : decValue ⟨'-' :: (natDigits (-v).toNat).map digitChar⟩
        = if ('-' : Char) = '-'
          then -(digitsVal ((natDigits (-v).toNat).map digitChar) : Int)
          else (digitsVal ('-' :: (natDigits (-v).toNat).map digitChar) : Int) := rfl
    rw [hneg, if_pos rfl, digitsVal_natDigits]
    omega
  · rw [decValue_natDecimal]
    omega

theorem natDecimal_isNonNeg (n : Nat) : isNonNegDecString (natDecimal n) = true := by
  unfold isNonNegDecString natDecimal
  simp only [String.toList, Bool.and_eq_true, List.all_eq_true]
  constructor
  · cases hnd : natDigits n with
    | nil => exact absurd hnd (natDigits_ne_nil n)
    | cons d t => simp
  · intro c hc
    rcases List.mem_map.mp hc with ⟨d, hd, rfl⟩
    exact digitChar_isDigit d (natDigits_all_lt n d hd)

/-! Helper lemmas about `wrap64` and the invocation paths. -/

theorem wrap64_range (x : Int) : -(2 ^ 63) ≤ wrap64 x ∧ wrap64 x < 2 ^ 63 := by
  unfold wrap64
  have h1 : 0 ≤ (x + 2 ^ 63) % 2 ^ 64 := Int.emod_nonneg _ (by norm_num)
  have h2 : (x + 2 ^ 63) % 2 ^ 64 < 2 ^ 64 := Int.emod_lt_of_pos _ (by norm_num)
  omega

theorem wrap64_eq_self {x : Int} (h1 : -(2 ^ 63) ≤ x) (h2 : x < 2 ^ 63) : wrap64 x = x := by
  unfold wrap64
  rw [Int.emod_eq_of_lt (by omega) (by omega)]
  omega

theorem cpuMicros_length_le (ts : Timespec) : (intDecimal (cpuMicros ts)).length ≤ 20 := by
  have hr := wrap64_range (ts.tv_sec * 1000000 + Int.tdiv ts.tv_nsec 1000)
  exact intDecimal_length_le hr.1 hr.2

theorem run_print (ts : Timespec) :
    timep_builtin (ClockOutcome.ok ts) ["clock_gettime"]
      = (EXECUTION_SUCCESS,
         { stdout := intDecimal (cpuMicros ts) ++ "\n", diag := [], bindings := [],
           clockReads := 1, frees := 1 }) := rfl

theorem run_assign (ts : Timespec) (a : String) (ha : a ≠ "") :
    timep_builtin (ClockOutcome.ok ts) ["clock_gettime", a]
      = (EXECUTION_SUCCESS,
         { stdout := "", diag := [],
           bindings := [(a, intDecimal (cpuMicros ts))],
           clockReads := 1, frees := 1 }) := by
  have hlen : (intDecimal (cpuMicros ts)).length ≤ 31 := by
    have := cpuMicros_length_le ts
    omega
  simp [timep_builtin, clock_gettime_main, ha, Effects.empty, snprintf32_eq hlen]

theorem printedValue_run (ts : Timespec) :
    printedValue (timep_builtin (ClockOutcome.ok ts) ["clock_gettime"])
      = intDecimal (cpuMicros ts) := by
  rw [printedValue, run_print]
  show (⟨((intDecimal (cpuMicros ts)) ++ "\n").data.dropLast⟩ : String) = _
  cases hd : intDecimal (cpuMicros ts) with
  | mk l =>
    have : (⟨l⟩ : String) ++ "\n" = ⟨l ++ ['\n']⟩ := rfl
    rw [this]
    simp

theorem timep_builtin_clock (env : ClockOutcome) (args : List String) :
    timep_builtin env ("clock_gettime" :: args)
      = ((clock_gettime_main env ("clock_gettime" :: args)).1,
         { (clock_gettime_main env ("clock_gettime" :: args)).2 with
             frees := (clock_gettime_main env ("clock_gettime" :: args)).2.frees + 1 }) := rfl

theorem main_too_many (env : ClockOutcome) (a b : String) (rest : List String) :
    clock_gettime_main env ("clock_gettime" :: a :: b :: rest)
      = (EXECUTION_FAILURE,
         { stdout := "", diag := ["clock_gettime: too many arguments"],
           bindings := [], clockReads := 0, frees := 0 }) := by
  simp only [clock_gettime_main, List.length_cons]
  rw [if_pos (show rest.length + 1 + 1 + 1 > 2 by omega)]
  rfl

theorem run_too_many (env : ClockOutcome) (a b : String) (rest : List String) :
    timep_builtin env ("clock_gettime" :: a :: b :: rest)
      = (EXECUTION_FAILURE,
         { stdout := "", diag := ["clock_gettime: too many arguments"],
           bindings := [], clockReads := 0, frees := 1 }) := by
  rw [timep_builtin_clock, main_too_many env a b rest]

theorem run_fail (errmsg : String) (args : List String) (h : args.length ≤ 1) :
    timep_builtin (ClockOutcome.fail errmsg) ("clock_gettime" :: args)
      = (EXECUTION_FAILURE,
         { stdout := "", diag := ["clock_gettime failed: " ++ errmsg],
           bindings := [], clockReads := 1, frees := 2 }) := by
  rcases args with _ | ⟨a, _ | ⟨b, t⟩⟩
  · rfl
  · rfl
  · exfalso
    simp only [List.length_cons] at h
    omega

theorem run_unsupported (args : List String) (h : args.length ≤ 1) :
    timep_builtin ClockOutcome.unsupported ("clock_gettime" :: args)
      = (EXECUTION_FAILURE,
         { stdout := "", diag := ["clock_gettime is not supported on this system."],
           bindings := [], clockReads := 0, frees := 2 }) := by
  rcases args with _ | ⟨a, _ | ⟨b, t⟩⟩
  · rfl
  · rfl
  · exfalso
    simp only [List.length_cons] at h
    omega

theorem run_ok_status (ts : Timespec) (args : List String) (h : args.length ≤ 1) :
    (timep_builtin (ClockOutcome.ok ts) ("clock_gettime" :: args)).1 = EXECUTION_SUCCESS := by
  rcases args with _ | ⟨a, _ | ⟨b, t⟩⟩
  · rfl
  · by_cases ha : a = ""
    · subst ha; rfl
    · rw [run_assign ts a ha]
  · exfalso
    simp only [List.length_cons] at h
    omega

theorem status_short_args (env : ClockOutcome) (args : List String) (h : args.length ≤ 1) :
    ((timep_builtin env ("clock_gettime" :: args)).1 = EXECUTION_SUCCESS
      ↔ (args.length ≤ 1 ∧ ∃ ts, env = ClockOutcome.ok ts))
    ∧ ((timep_builtin env ("clock_gettime" :: args)).1 = EXECUTION_SUCCESS
      ∨ (timep_builtin env ("clock_gettime" :: args)).1 = EXECUTION_FAILURE)
    ∧ (2 ≤ args.length →
        (timep_builtin env ("clock_gettime" :: args)).2.diag
          = ["clock_gettime: too many arguments"]
        ∧ (timep_builtin env ("clock_gettime" :: args)).2.stdout = "")
    ∧ (∀ errmsg, args.length ≤ 1 → env = ClockOutcome.fail errmsg →
        (timep_builtin env ("clock_gettime" :: args)).2.diag
          = ["clock_gettime failed: " ++ errmsg]
        ∧ (timep_builtin env ("clock_gettime" :: args)).2.stdout = "")
    ∧ (args.length ≤ 1 → env = ClockOutcome.unsupported →
        (timep_builtin env ("clock_gettime" :: args)).2.diag
          = ["clock_gettime is not supported on this system."]
        ∧ (timep_builtin env ("clock_gettime" :: args)).2.stdout = "") := by
  rcases env with _ | errmsg | ts
  · rw [run_unsupported args h]
    refine ⟨by simp [EXECUTION_SUCCESS, EXECUTION_FAILURE], Or.inr rfl,
      fun hl => absurd hl (by omega), fun e _ hc => ClockOutcome.noConfusion hc,
      fun _ _ => ⟨rfl, rfl⟩⟩
  · rw [run_fail errmsg args h]
    refine ⟨by simp [EXECUTION_SUCCESS, EXECUTION_FAILURE], Or.inr rfl,
      fun hl => absurd hl (by omega), ?_, fun _ hc => ClockOutcome.noConfusion hc⟩
    intro e _ hc
    cases hc
    exact ⟨rfl, rfl⟩
  · refine ⟨?_, Or.inl (run_ok_status ts args h), fun hl => absurd hl (by omega),
      fun e _ hc => ClockOutcome.noConfusion hc, fun _ hc => ClockOutcome.noConfusion hc⟩
    constructor
    · intro _
      exact ⟨h, ts, rfl⟩
    · intro _
      exact run_ok_status ts args h

/-! The claims. -/

/-- Claim C1: for every clock reading `(tv_sec, tv_nsec)`, the value the
operation emits — printed with no argument, or bound to the named variable —
is `tv_sec * 1000000 + tv_nsec / 1000` (with `/` truncating toward zero,
i.e. `Int.tdiv`) held as a 64-bit signed integer (`wrap64`); the emitted
string parses back (`decValue`) to that value, and whenever the mathematical
value lies in the signed 64-bit range, it equals
`tv_sec * 1000000 + Int.tdiv tv_nsec 1000` exactly. -/
theorem claim_C1_micros_formula (ts : Timespec) :
    decValue (printedValue (timep_builtin (ClockOutcome.ok ts) ["clock_gettime"]))
      = wrap64 (ts.tv_sec * 1000000 + Int.tdiv ts.tv_nsec 1000)
    ∧ (∀ a : String, a ≠ "" →
        (timep_builtin (ClockOutcome.ok ts) ["clock_gettime", a]).2.bindings
          = [(a, intDecimal (wrap64 (ts.tv_sec * 1000000 + Int.tdiv ts.tv_nsec 1000)))]
        ∧ decValue (intDecimal (wrap64 (ts.tv_sec * 1000000 + Int.tdiv ts.tv_nsec 1000)))
          = wrap64 (ts.tv_sec * 1000000 + Int.tdiv ts.tv_nsec 1000))
    ∧ (-(2 ^ 63) ≤ ts.tv_sec * 1000000 + Int.tdiv ts.tv_nsec 1000 →
        ts.tv_sec * 1000000 + Int.tdiv ts.tv_nsec 1000 < 2 ^ 63 →
        wrap64 (ts.tv_sec * 1000000 + Int.tdiv ts.tv_nsec 1000)
          = ts.tv_sec * 1000000 + Int.tdiv ts.tv_nsec 1000) := by
  refine ⟨?_, ?_, fun h1 h2 => wrap64_eq_self h1 h2⟩
  · rw [printedValue_run, decValue_intDecimal]
    rfl
  · intro a ha
    refine ⟨?_, decValue_intDecimal _⟩
    rw [run_assign ts a ha]
    rfl

/-- Witness for C1 at the concrete reading 3 s, 4567 ns: the printed and
bound value is `3 * 1000000 + 4567 / 1000 = 3000004`. -/
theorem claim_C1_micros_formula_witness :
    decValue (printedValue (timep_builtin (ClockOutcome.ok ⟨3, 4567⟩) ["clock_gettime"]))
      = wrap64 (3 * 1000000 + Int.tdiv 4567 1000)
    ∧ (timep_builtin (ClockOutcome.ok ⟨3, 4567⟩) ["clock_gettime", "RESULT"]).2.bindings
      = [("RESULT", intDecimal (wrap64 (3 * 1000000 + Int.tdiv 4567 1000)))]
    ∧ wrap64 (3 * 1000000 + Int.tdiv 4567 1000) = 3 * 1000000 + Int.tdiv 4567 1000
    ∧ (3 * 1000000 + Int.tdiv (4567 : Int) 1000) = 3000004 := by
  obtain ⟨h1, h2, h3⟩ := claim_C1_micros_formula ⟨3, 4567⟩
  exact ⟨h1, (h2 "RESULT" (by decide)).1, h3 (by decide) (by decide), by decide⟩

/-- Claim C2: any invocation with two or more positional arguments fails with
the usage diagnostic; the clock is never read, nothing is printed, no variable
is bound (and the argument vector is freed once, by the dispatcher). -/
theorem claim_C2_too_many_args (env : ClockOutcome) (a b : String) (rest : List String) :
    timep_builtin env ("clock_gettime" :: a :: b :: rest)
      = (EXECUTION_FAILURE,
         { stdout := "", diag := ["clock_gettime: too many arguments"],
           bindings := [], clockReads := 0, frees := 1 }) :=
  run_too_many env a b rest

/-- Claim C3 (evaluation of the code): on the success path `argv` is freed
once, but on the system-call-failure path and on the unsupported-platform
path it is freed twice — once inside `clock_gettime_main` (lines 80 and 98)
and once more in `timep_builtin` (line 130) — a double free, contradicting
the specification that the transient argument list is freed exactly once. -/
theorem claim_C3_free_counts :
    (timep_builtin (ClockOutcome.ok ⟨0, 0⟩) ["clock_gettime"]).2.frees = 1
    ∧ (timep_builtin (ClockOutcome.fail "Invalid argument") ["clock_gettime"]).2.frees = 2
    ∧ (timep_builtin ClockOutcome.unsupported ["clock_gettime"]).2.frees = 2 := by
  refine ⟨rfl, rfl, rfl⟩

/-- Claim C4: the invocation succeeds iff the argument count is valid (zero or
one positional argument) and the clock read succeeds; otherwise it returns
the failure status, and each failure case writes its diagnostic to the
diagnostic channel while nothing goes to standard output. -/
theorem claim_C4_status_and_diagnostics (env : ClockOutcome) (args : List String) :
    ((timep_builtin env ("clock_gettime" :: args)).1 = EXECUTION_SUCCESS
      ↔ (args.length ≤ 1 ∧ ∃ ts, env = ClockOutcome.ok ts))
    ∧ ((timep_builtin env ("clock_gettime" :: args)).1 = EXECUTION_SUCCESS
      ∨ (timep_builtin env ("clock_gettime" :: args)).1 = EXECUTION_FAILURE)
    ∧ (2 ≤ args.length →
        (timep_builtin env ("clock_gettime" :: args)).2.diag
          = ["clock_gettime: too many arguments"]
        ∧ (timep_builtin env ("clock_gettime" :: args)).2.stdout = "")
    ∧ (∀ errmsg, args.length ≤ 1 → env = ClockOutcome.fail errmsg →
        (timep_builtin env ("clock_gettime" :: args)).2.diag
          = ["clock_gettime failed: " ++ errmsg]
        ∧ (timep_builtin env ("clock_gettime" :: args)).2.stdout = "")
    ∧ (args.length ≤ 1 → env = ClockOutcome.unsupported →
        (timep_builtin env ("clock_gettime" :: args)).2.diag
          = ["clock_gettime is not supported on this system."]
        ∧ (timep_builtin env ("clock_gettime" :: args)).2.stdout = "") := by
  rcases args with _ | ⟨a, _ | ⟨b, t⟩⟩
  · exact status_short_args env [] (by decide)
  · exact status_short_args env [a] (by simp)
  · rw [run_too_many env a b t]
    refine ⟨?_, Or.inr rfl, fun _ => ⟨rfl, rfl⟩, ?_, ?_⟩
    · constructor
      · intro hc
        exact absurd hc (by decide)
      · rintro ⟨hl, -⟩
        exfalso
        simp only [List.length_cons] at hl
        omega
    · intro e hl _
      exfalso
      simp only [List.length_cons] at hl
      omega
    · intro hl _
      exfalso
      simp only [List.length_cons] at hl
      omega

/-- Witness for C4: concrete instances of each failure diagnostic and of the
success status. -/
theorem claim_C4_status_and_diagnostics_witness :
    ((timep_builtin (ClockOutcome.fail "E") ["clock_gettime"]).2.diag
        = ["clock_gettime failed: " ++ "E"]
      ∧ (timep_builtin (ClockOutcome.fail "E") ["clock_gettime"]).2.stdout = "")
    ∧ ((timep_builtin ClockOutcome.unsupported ["clock_gettime"]).2.diag
        = ["clock_gettime is not supported on this system."]
      ∧ (timep_builtin ClockOutcome.unsupported ["clock_gettime"]).2.stdout = "")
    ∧ ((timep_builtin (ClockOutcome.ok ⟨0, 0⟩) ["clock_gettime"]).1 = EXECUTION_SUCCESS)
    ∧ ((timep_builtin (ClockOutcome.ok ⟨0, 0⟩) ["clock_gettime", "x", "y"]).2.diag
        = ["clock_gettime: too many arguments"]) :=
  ⟨(claim_C4_status_and_diagnostics (ClockOutcome.fail "E") []).2.2.2.1 "E" (by decide) rfl,
   (claim_C4_status_and_diagnostics ClockOutcome.unsupported []).2.2.2.2 (by decide) rfl,
   ((claim_C4_status_and_diagnostics (ClockOutcome.ok ⟨0, 0⟩) []).1).mpr
     ⟨by decide, ⟨0, 0⟩, rfl⟩,
   ((claim_C4_status_and_diagnostics (ClockOutcome.ok ⟨0, 0⟩) ["x", "y"]).2.2.1 (by decide)).1⟩

/-- Claim C5: an invocation whose single positional argument is the empty
string yields exactly the same result as an invocation with no positional
argument, in every environment; on a successful read, the decimal value plus
a newline goes to standard output and no variable is bound. -/
theorem claim_C5_empty_arg_like_none (env : ClockOutcome) (ts : Timespec) :
    timep_builtin env ["clock_gettime", ""] = timep_builtin env ["clock_gettime"]
    ∧ (timep_builtin (ClockOutcome.ok ts) ["clock_gettime", ""]).2.stdout
        = intDecimal (cpuMicros ts) ++ "\n"
    ∧ (timep_builtin (ClockOutcome.ok ts) ["clock_gettime", ""]).2.bindings = [] := by
  refine ⟨?_, rfl, rfl⟩
  cases env <;> rfl

/-- Claim C6: with exactly one non-empty argument and a successful clock read,
the decimal string of the microsecond value is bound to that variable, nothing
is written to standard output, and the status is success. -/
theorem claim_C6_assigns_variable (ts : Timespec) (a : String) (ha : a ≠ "") :
    timep_builtin (ClockOutcome.ok ts) ["clock_gettime", a]
      = (EXECUTION_SUCCESS,
         { stdout := "", diag := [],
           bindings := [(a, intDecimal (cpuMicros ts))],
           clockReads := 1, frees := 1 }) :=
  run_assign ts a ha

/-- Witness for C6 at the reading 1 s, 2500 ns with variable `RESULT`:
the bound string is `1000002`. -/
theorem claim_C6_assigns_variable_witness :
    ("RESULT" : String) ≠ ""
    ∧ timep_builtin (ClockOutcome.ok ⟨1, 2500⟩) ["clock_gettime", "RESULT"]
      = (EXECUTION_SUCCESS,
         { stdout := "", diag := [],
           bindings := [("RESULT", intDecimal (cpuMicros ⟨1, 2500⟩))],
           clockReads := 1, frees := 1 })
    ∧ intDecimal (cpuMicros ⟨1, 2500⟩) = "1000002" :=
  ⟨by decide, claim_C6_assigns_variable ⟨1, 2500⟩ "RESULT" (by decide), by decide⟩

/-- Counterexample to C7 as stated: the reading 10^13 s, 0 ns satisfies the
claim's precondition (`tv_sec ≥ 0`, `tv_nsec ∈ [0, 10^9)`), yet
`10^13 * 1000000 = 10^19` overflows `int64_t`, so the printed string is the
negative `-8446744073709551616` — not a non-negative decimal string. -/
theorem claim_C7_not_nonneg_cex :
    (0 : Int) ≤ 10000000000000 ∧ (0 : Int) ≤ 0 ∧ (0 : Int) < 1000000000
    ∧ isNonNegDecString
        (printedValue (timep_builtin (ClockOutcome.ok ⟨10000000000000, 0⟩) ["clock_gettime"]))
      = false
    ∧ printedValue (timep_builtin (ClockOutcome.ok ⟨10000000000000, 0⟩) ["clock_gettime"])
      = "-8446744073709551616" := by
  refine ⟨by norm_num, le_refl 0, by norm_num, ?_, ?_⟩ <;> decide

/-- Claim C7 as amended: under the claim's precondition plus the additional
requirement that the computed value fits in the signed 64-bit range, the
printed (or bound) string is a non-negative decimal integer string that
parses back to the computed value. -/
theorem claim_C7_nonneg_decimal (ts : Timespec)
    (hs : 0 ≤ ts.tv_sec) (hn : 0 ≤ ts.tv_nsec) (hnb : ts.tv_nsec < 1000000000)
    (hfit : ts.tv_sec * 1000000 + Int.tdiv ts.tv_nsec 1000 < 2 ^ 63) :
    isNonNegDecString
        (printedValue (timep_builtin (ClockOutcome.ok ts) ["clock_gettime"])) = true
    ∧ decValue (printedValue (timep_builtin (ClockOutcome.ok ts) ["clock_gettime"]))
        = ts.tv_sec * 1000000 + Int.tdiv ts.tv_nsec 1000
    ∧ ∀ a : String, a ≠ "" →
        (timep_builtin (ClockOutcome.ok ts) ["clock_gettime", a]).2.bindings
          = [(a, intDecimal (ts.tv_sec * 1000000 + Int.tdiv ts.tv_nsec 1000))]
        ∧ decValue (intDecimal (ts.tv_sec * 1000000 + Int.tdiv ts.tv_nsec 1000))
          = ts.tv_sec * 1000000 + Int.tdiv ts.tv_nsec 1000 := by
  have hdiv : Int.tdiv ts.tv_nsec 1000 = ts.tv_nsec / 1000 := by
    rw [Int.tdiv_eq_ediv] <;> omega
  have hv0 : 0 ≤ ts.tv_sec * 1000000 + Int.tdiv ts.tv_nsec 1000 := by
    rw [hdiv]
    omega
  have hw : cpuMicros ts = ts.tv_sec * 1000000 + Int.tdiv ts.tv_nsec 1000 :=
    wrap64_eq_self (by omega) hfit
  refine ⟨?_, ?_, ?_⟩
  · rw [printedValue_run, hw]
    unfold intDecimal
    rw [if_neg (not_lt.mpr hv0)]
    exact natDecimal_isNonNeg _
  · rw [printedValue_run, decValue_intDecimal, hw]
  · intro a ha
    refine ⟨?_, decValue_intDecimal _⟩
    rw [run_assign ts a ha, hw]

/-- Witness for C7 (amended) at the reading 2 s, 123456 ns: the printed
string is the non-negative decimal `2000123`, and it parses back. -/
theorem claim_C7_nonneg_decimal_witness :
    isNonNegDecString
        (printedValue (timep_builtin (ClockOutcome.ok ⟨2, 123456⟩) ["clock_gettime"])) = true
    ∧ decValue (printedValue (timep_builtin (ClockOutcome.ok ⟨2, 123456⟩) ["clock_gettime"]))
      = 2 * 1000000 + Int.tdiv 123456 1000 := by
  obtain ⟨h1, h2, -⟩ := claim_C7_nonneg_decimal ⟨2, 123456⟩
    (by norm_num) (by norm_num) (by norm_num) (by decide)
  exact ⟨h1, h2⟩

/-- Counterexample to C8 as stated: the readings (0 s, 0 ns) and
(10^13 s, 0 ns) are lexicographically ordered with nanosecond fields in
range, yet the second converted value overflows `int64_t` and becomes
negative, so the conversion is not monotone. -/
theorem claim_C8_monotone_cex :
    ((0 : Int) ≤ 0 ∧ (0 : Int) < 1000000000)
    ∧ ((0 : Int) ≤ 0 ∧ (0 : Int) < 1000000000)
    ∧ ((0 : Int) < 10000000000000 ∨ ((0 : Int) = 10000000000000 ∧ (0 : Int) ≤ 0))
    ∧ ¬ cpuMicros ⟨0, 0⟩ ≤ cpuMicros ⟨10000000000000, 0⟩ := by
  refine ⟨⟨le_refl 0, by norm_num⟩, ⟨le_refl 0, by norm_num⟩, Or.inl (by norm_num), ?_⟩
  decide

/-- Claim C8 as amended: the conversion to microseconds is monotone over
lexicographically ordered readings with nanosecond fields in `[0, 10^9)`,
provided both converted values lie in the signed 64-bit range. -/
theorem claim_C8_monotone (t1 t2 : Timespec)
    (hn1 : 0 ≤ t1.tv_nsec) (hn1b : t1.tv_nsec < 1000000000)
    (hn2 : 0 ≤ t2.tv_nsec) (hn2b : t2.tv_nsec < 1000000000)
    (hlex : t1.tv_sec < t2.tv_sec ∨ (t1.tv_sec = t2.tv_sec ∧ t1.tv_nsec ≤ t2.tv_nsec))
    (hlo : -(2 ^ 63) ≤ t1.tv_sec * 1000000 + Int.tdiv t1.tv_nsec 1000)
    (hhi : t2.tv_sec * 1000000 + Int.tdiv t2.tv_nsec 1000 < 2 ^ 63) :
    cpuMicros t1 ≤ cpuMicros t2 := by
  have h1 : Int.tdiv t1.tv_nsec 1000 = t1.tv_nsec / 1000 := by
    rw [Int.tdiv_eq_ediv] <;> omega
  have h2 : Int.tdiv t2.tv_nsec 1000 = t2.tv_nsec / 1000 := by
    rw [Int.tdiv_eq_ediv] <;> omega
  have hmono : t1.tv_sec * 1000000 + Int.tdiv t1.tv_nsec 1000
      ≤ t2.tv_sec * 1000000 + Int.tdiv t2.tv_nsec 1000 := by
    rw [h1, h2]
    rcases hlex with h | ⟨h, h'⟩ <;> omega
  have e1 : cpuMicros t1 = t1.tv_sec * 1000000 + Int.tdiv t1.tv_nsec 1000 :=
    wrap64_eq_self hlo (by omega)
  have e2 : cpuMicros t2 = t2.tv_sec * 1000000 + Int.tdiv t2.tv_nsec 1000 :=
    wrap64_eq_self (by omega) hhi
  rw [e1, e2]
  exact hmono

/-- Witness for C8 (amended) at the readings (0 s, 0 ns) ≤ (1 s, 999999999 ns). -/
theorem claim_C8_monotone_witness :
    cpuMicros ⟨0, 0⟩ ≤ cpuMicros ⟨1, 999999999⟩ :=
  claim_C8_monotone ⟨0, 0⟩ ⟨1, 999999999⟩ (by decide) (by decide) (by decide) (by decide)
    (Or.inl (by decide)) (by decide) (by decide)

/-- Claim C9: the decimal representation of any signed 64-bit value takes at
most 20 characters plus the NUL terminator, so it fits in the 32-byte
`snprintf` buffer; the string bound to the variable is therefore never
truncated and parses back to the computed value exactly. -/
theorem claim_C9_buffer_fits (v : Int) (h1 : -(2 ^ 63) ≤ v) (h2 : v < 2 ^ 63) :
    (intDecimal v).length + 1 ≤ 32
    ∧ snprintf32 (intDecimal v) = intDecimal v
    ∧ decValue (intDecimal v) = v
    ∧ (∀ ts : Timespec, ∀ a : String, a ≠ "" → cpuMicros ts = v →
        (timep_builtin (ClockOutcome.ok ts) ["clock_gettime", a]).2.bindings
          = [(a, intDecimal v)]) := by
  have hl := intDecimal_length_le h1 h2
  refine ⟨by omega, snprintf32_eq (by omega), decValue_intDecimal v, ?_⟩
  intro ts a ha hv
  rw [run_assign ts a ha, hv]

/-- Witness for C9 at the value 5000000, reached by the reading (5 s, 0 ns)
bound to variable `T`. -/
theorem claim_C9_buffer_fits_witness :
    (intDecimal 5000000).length + 1 ≤ 32
    ∧ snprintf32 (intDecimal 5000000) = intDecimal 5000000
    ∧ decValue (intDecimal 5000000) = 5000000
    ∧ (timep_builtin (ClockOutcome.ok ⟨5, 0⟩) ["clock_gettime", "T"]).2.bindings
      = [("T", intDecimal 5000000)] := by
  obtain ⟨h1, h2, h3, h4⟩ := claim_C9_buffer_fits 5000000 (by norm_num) (by norm_num)
  exact ⟨h1, h2, h3, h4 ⟨5, 0⟩ "T" (by decide) (by decide)⟩

/-- Claim C10: when the invoked command name (`argv[0]`) differs from
`clock_gettime`, the dispatcher reports the unknown-command diagnostic and
returns the failure status; the clock is not read, nothing is printed, and
no variable is bound. -/
theorem claim_C10_unknown_command (env : ClockOutcome) (sub : String) (rest : List String)
    (h : sub ≠ "clock_gettime") :
    timep_builtin env (sub :: rest)
      = (EXECUTION_FAILURE,
         { stdout := "",
           diag := ["timep: unknown command " ++ squote ++ sub ++ squote],
           bindings := [], clockReads := 0, frees := 1 }) := by
  have e : timep_builtin env (sub :: rest)
      = if sub = "clock_gettime" then
          ((clock_gettime_main env (sub :: rest)).1,
           { (clock_gettime_main env (sub :: rest)).2 with
               frees := (clock_gettime_main env (sub :: rest)).2.frees + 1 })
        else
          (EXECUTION_FAILURE,
            { stdout := "",
              diag := ["timep: unknown command " ++ squote ++ sub ++ squote],
              bindings := [], clockReads := 0, frees := 1 }) := rfl
  rw [e, if_neg h]

/-- Witness for C10 with command name `foo`. -/
theorem claim_C10_unknown_command_witness :
    timep_builtin (ClockOutcome.ok ⟨0, 0⟩) ["foo"]
      = (EXECUTION_FAILURE,
         { stdout := "",
           diag := ["timep: unknown command " ++ squote ++ "foo" ++ squote],
           bindings := [], clockReads := 0, frees := 1 }) :=
  claim_C10_unknown_command (ClockOutcome.ok ⟨0, 0⟩) "foo" [] (by decide)

end Timep
